import Mathlib

/-!
Verification of the wsl-server generation-build-repair pipeline.

The definitions below are a shallow embedding of the code of the repository:

* `bash.sh` (the pipeline script): the file materialization loop, the
  `validate_response` helper, the bounded AI-fix `while` loop, the degraded
  fallback build, and the exit-code behaviour of the whole script.
* `wsl-api-server.js`: the `/api/generate-plugin` handler (unique id choice,
  subprocess close handling, JAR-path extraction, registry finalization and
  eviction), the stdout stage-inference handler, the `/api/build-status/:id`
  endpoint and the rate-limiting middleware.

Strings are modelled as Lean `String`, JavaScript `String.includes` as a
character-list search, registries (`activeBuilds`, the rate-limit `clients`
map) as association lists in insertion order, and the subprocess as an
oracle giving the result of each build attempt and each fix-service call.
-/

namespace WslServer

/-- Leading-run test on character lists: `matchAt pat txt` is true when
`pat` occurs at the very start of `txt`. -/
def matchAt : List Char → List Char → Bool
  | [], _ => true
  | _ :: _, [] => false
  | a :: pat, b :: txt => a == b && matchAt pat txt

/-- Substring search on character lists: true when `pat` occurs somewhere
in the text (at any position). -/
def findSub (pat : List Char) : List Char → Bool
  | [] => matchAt pat []
  | c :: cs => matchAt pat (c :: cs) || findSub pat cs

/-- JavaScript `s.includes(pat)`. -/
def jsIncludes (s pat : String) : Bool := findSub pat.data s.data

/-! ## File Materializer (bash.sh, part_005 lines 148-165)

The materialization loop iterates over the keys of the `data` object of the
generation response, runs `mkdir -p "$(dirname "$OUTPUT_DIR/$FILE_PATH")"`
and writes the content to `"$OUTPUT_DIR/$FILE_PATH"`.  There is no check of
any kind on the relative path.  We model an absolute path as its list of
segments and let the filesystem resolve `..`, `.` and empty segments, which
is exactly what the kernel does with the path the script hands to it. -/

/-- Filesystem resolution of a single path segment against a directory given
as a segment list: `..` pops a segment, `.` and empty segments are no-ops,
anything else descends. -/
def stepSeg (acc : List String) (seg : String) : List String :=
  if seg = ".." then acc.dropLast
  else if seg = "." then acc
  else if seg = "" then acc
  else acc ++ [seg]

/-- Split a relative path into its `/`-separated segments. -/
def splitSegsAux (cur : List Char) : List Char → List String
  | [] => [String.mk cur.reverse]
  | c :: cs =>
    if c = '/' then String.mk cur.reverse :: splitSegsAux [] cs
    else splitSegsAux (c :: cur) cs

/-- Segments of a relative path string. -/
def splitSegs (p : String) : List String := splitSegsAux [] p.data

/-- The absolute path (as resolved by the filesystem) that the script writes
to for FileSet key `rel` under destination directory `root`. -/
def resolveSegs (root : List String) (rel : String) : List String :=
  (splitSegs rel).foldl stepSeg root

/-- True when the resolved path `p` still lies below the directory `root`. -/
def underRoot (root p : List String) : Bool :=
  p.take root.length == root

/-- A single file write performed by the materialization loop. -/
structure WriteOp where
  dest : List String
  content : String
  deriving DecidableEq

/-- Embedding of the file materialization loop of bash.sh (part_005 lines
148-165): for every key of the FileSet the content is written to
`$OUTPUT_DIR/$FILE_PATH`.  The loop never fails: it performs one write per
entry whatever the relative path looks like. -/
def materializeFiles (outputDir : List String) (files : List (String × String)) :
    List WriteOp :=
  files.map (fun e => { dest := resolveSegs outputDir e.1, content := e.2 })

/-! ## Repair Loop (bash.sh, part_005 lines 293-381) -/

/-- Shape of a response of the generation/fix service as seen by
`validate_response`: an empty body, a body that `jq` cannot parse, or parsed
JSON carrying a `status`, an optional `message` and a `data` FileSet. -/
inductive ApiResp where
  | empty : ApiResp
  | invalidJson (raw : String) : ApiResp
  | jsonResp (status : String) (message : Option String) (data : List (String × String)) : ApiResp
  deriving DecidableEq

/-- `validate_response` from bash.sh (part_005 lines 107-138): rejects an
empty response, a response that is not well-formed JSON, and a response
whose `status` field is not the string `success`. -/
def validate_response : ApiResp → Bool
  | .empty => false
  | .invalidJson _ => false
  | .jsonResp status _ _ => status == "success"

/-- The attempt budget `MAX_AI_FIX_ATTEMPTS` of bash.sh (part_005 line 295). -/
def MAX_AI_FIX_ATTEMPTS : Nat := 50

/-- Embedding of the AI fix `while` loop of bash.sh (part_005 lines
299-381).  `buildOk k` is the oracle result of `build_plugin` after the
fixes of round `k` were applied, `fixResp k` the fix-service response of
round `k`, `attempts` the current value of `AI_FIX_ATTEMPTS`, and `fuel`
the quantity `MAX_AI_FIX_ATTEMPTS - AI_FIX_ATTEMPTS` that the `while` guard
`[ $AI_FIX_ATTEMPTS -lt $MAX_AI_FIX_ATTEMPTS ]` counts down.  Each loop
iteration first increments the counter; an invalid fix response hits the
`continue`, a valid one applies the fixed files and rebuilds, leaving the
loop with `BUILD_SUCCESS=true` on success.  The result is the final value
of `(AI_FIX_ATTEMPTS, BUILD_SUCCESS)`. -/
def aiFixLoop (buildOk : Nat → Bool) (fixResp : Nat → ApiResp) :
    Nat → Nat → Nat × Bool
  | 0, attempts => (attempts, false)
  | fuel + 1, attempts =>
    let a := attempts + 1
    if validate_response (fixResp a) then
      if buildOk a then (a, true)
      else aiFixLoop buildOk fixResp fuel a
    else
      aiFixLoop buildOk fixResp fuel a

/-- The AI fix loop as entered by the script: counter starts at `0`, the
guard allows `MAX_AI_FIX_ATTEMPTS` iterations. -/
def runFixLoop (buildOk : Nat → Bool) (fixResp : Nat → ApiResp) : Nat × Bool :=
  aiFixLoop buildOk fixResp MAX_AI_FIX_ATTEMPTS 0

/-- Result of one whole run of bash.sh (part_005), as observed by the caller:
the exit code of the process, the final value of the `AI_FIX_ATTEMPTS`
counter, whether some build eventually succeeded, and the path printed on
the `PLUGIN_JAR_PATH:` marker line when one was printed. -/
structure ScriptResult where
  exitCode : Int
  fixAttempts : Nat
  buildSuccess : Bool
  jarPrinted : Option String
  deriving DecidableEq

/-- Embedding of the control flow of bash.sh (part_005) after argument
handling.  `genResp` is the generation-service response (an invalid one
makes the script `exit 1`, lines 141-144).  `initialBuildOk` is the result
of the first `build_plugin` (line 272), `buildOk`/`fixResp` drive the AI
fix loop, `fallbackOk` is the result of the degraded
`mvn clean package -Dmaven.shade.skip=true` build (line 392), and
`jarFound` is what `find_jar_file` locates after a successful build.
After a valid generation the script always falls through to the final
`echo "✨ Process completed"` banner, so its exit status is 0 on every one
of those paths - including the path where the initial build, all fix
rounds and the degraded fallback build failed (lines 405-414 only echo
advice and fall through). -/
def runScript (genResp : ApiResp) (initialBuildOk : Bool)
    (buildOk : Nat → Bool) (fixResp : Nat → ApiResp)
    (fallbackOk : Bool) (jarFound : Option String) : ScriptResult :=
  if validate_response genResp then
    if initialBuildOk then
      { exitCode := 0, fixAttempts := 0, buildSuccess := true, jarPrinted := jarFound }
    else
      let r := runFixLoop buildOk fixResp
      if r.2 then
        { exitCode := 0, fixAttempts := r.1, buildSuccess := true, jarPrinted := jarFound }
      else if fallbackOk then
        { exitCode := 0, fixAttempts := r.1, buildSuccess := false, jarPrinted := jarFound }
      else
        { exitCode := 0, fixAttempts := r.1, buildSuccess := false, jarPrinted := none }
  else
    { exitCode := 1, fixAttempts := 0, buildSuccess := false, jarPrinted := none }

/-! ## Build Tracker and request handler (wsl-api-server.js) -/

namespace buildStages

/-- Stage string (wsl-api-server.js line 108). -/
def UNDERSTANDING : String := "Understanding plugin requirements"

/-- Stage string (line 109). -/
def REFINING : String := "Refining implementation approach"

/-- Stage string (line 110). -/
def GENERATING : String := "Generating code files"

/-- Stage string (line 111). -/
def CREATING : String := "Creating project structure"

/-- Stage string (line 112). -/
def COMPILING : String := "Compiling Java code"

/-- Stage string (line 113). -/
def FIXING : String := "Fixing compilation errors"

/-- Stage string (line 114). -/
def SUCCESS : String := "Build completed successfully"

/-- Stage string (line 115). -/
def FAILED : String := "Build failed"

end buildStages

/-- One entry of the `logs` array of a tracked build. -/
structure LogEntry where
  channel : String
  message : String
  deriving DecidableEq

/-- The per-job record stored in the `activeBuilds` map
(wsl-api-server.js lines 165-171 and the fields added later). -/
structure BuildData where
  logs : List LogEntry
  status : String
  startTime : Nat
  stage : String
  fixAttempts : Nat
  jarPath : Option String
  error : Option String
  deriving DecidableEq

/-- The record registered for a fresh job (lines 165-171). -/
def initBuild (t : Nat) : BuildData :=
  { logs := [], status := "initializing", startTime := t,
    stage := buildStages.UNDERSTANDING, fixAttempts := 0,
    jarPath := none, error := none }

/-- Whitespace test used to model JavaScript `String.prototype.trim`. -/
def isWS (c : Char) : Bool :=
  c = ' ' || c = '\n' || c = '\t' || c = '\r'

/-- JavaScript `s.trim()`. -/
def strTrim (s : String) : String :=
  String.mk (((s.data.dropWhile isWS).reverse.dropWhile isWS).reverse)

/-- The stdout data handler of the generate-plugin endpoint
(wsl-api-server.js lines 196-227): append the (trimmed) chunk to the log
and run the stage-inference chain; the `FIXING` branch is the only place
that increments `fixAttempts`. -/
def stdoutUpdate (output : String) (b : BuildData) : BuildData :=
  let b1 := { b with logs := b.logs ++ [{ channel := "stdout", message := strTrim output }] }
  if jsIncludes output "Analyzing your request" || jsIncludes output "Understanding requirements" then
    { b1 with stage := buildStages.UNDERSTANDING }
  else if jsIncludes output "Designing plugin structure" || jsIncludes output "Refining implementation" then
    { b1 with stage := buildStages.REFINING }
  else if jsIncludes output "Generating code" || jsIncludes output "Writing plugin code" then
    { b1 with stage := buildStages.GENERATING }
  else if jsIncludes output "Creating project files" || jsIncludes output "Setting up project" then
    { b1 with stage := buildStages.CREATING }
  else if jsIncludes output "Compiling" || jsIncludes output "Running Maven" then
    { b1 with stage := buildStages.COMPILING }
  else if jsIncludes output "Attempting to fix error" || jsIncludes output "Fixing compilation issues" then
    { b1 with fixAttempts := b1.fixAttempts + 1, stage := buildStages.FIXING }
  else if jsIncludes output "Build successful" || jsIncludes output "Plugin generation complete" then
    { b1 with stage := buildStages.SUCCESS, status := "completed" }
  else b1

/-- The stderr data handler (lines 229-246): append to the log and move the
stage to `FIXING` on compiler-error markers; it never touches
`fixAttempts`. -/
def stderrUpdate (output : String) (b : BuildData) : BuildData :=
  let b1 := { b with logs := b.logs ++ [{ channel := "stderr", message := strTrim output }] }
  if jsIncludes output "error:" || jsIncludes output "Exception" then
    { b1 with stage := buildStages.FIXING }
  else b1

/-- Fold the stdout handler over a sequence of output chunks. -/
def processStdoutLines (lines : List String) (b : BuildData) : BuildData :=
  lines.foldl (fun acc o => stdoutUpdate o acc) b

/-- Remainder of the text after the first occurrence of `pat`, when `pat`
occurs at all. -/
def afterSub (pat : List Char) : List Char → Option (List Char)
  | [] => if matchAt pat [] then some (List.drop pat.length []) else none
  | c :: cs =>
    if matchAt pat (c :: cs) then some (List.drop pat.length (c :: cs))
    else afterSub pat cs

/-- Position (as a drop count) of the first occurrence of `pat` in the
text, when `pat` occurs at all. -/
def firstMatchPos (pat : List Char) : List Char → Option Nat
  | [] => if matchAt pat [] then some 0 else none
  | c :: cs =>
    if matchAt pat (c :: cs) then some 0
    else (firstMatchPos pat cs).map (· + 1)

/-- The regex `/PLUGIN_JAR_PATH:(.*)/` of wsl-api-server.js line 278
applied to one line of stdout (`.` does not cross a newline, so the
capture runs to the end of the line), followed by `.trim()`. -/
def newFormatMatch (l : String) : Option String :=
  (afterSub "PLUGIN_JAR_PATH:".data l.data).map (fun cs => strTrim (String.mk cs))

/-- The fallback regex `/Plugin JAR file created:?\s*(.*\.jar)/` of line
285 applied to one line of stdout: after the literal marker, an optional
colon and optional whitespace, the greedy capture extends to the last
`.jar` of the line; the captured text is then trimmed. -/
def oldFormatMatch (l : String) : Option String :=
  match afterSub "Plugin JAR file created".data l.data with
  | none => none
  | some rest =>
    let rest1 := match rest with
      | ':' :: t => t
      | other => other
    let rest2 := rest1.dropWhile isWS
    match firstMatchPos ".jar".data.reverse rest2.reverse with
    | some i => some (strTrim (String.mk (rest2.take (rest2.length - i))))
    | none => none

/-- JAR path extraction from the combined stdout (lines 277-290): the
`PLUGIN_JAR_PATH:` marker wins, the old wording is the fallback; when
neither matches anywhere, `jarPath` stays `null`. -/
def extractJarPath (stdoutLines : List String) : Option String :=
  match stdoutLines.findSome? newFormatMatch with
  | some j => some j
  | none => stdoutLines.findSome? oldFormatMatch

/-- Lookup in a JavaScript `Map` modelled as an insertion-ordered
association list. -/
def mapGet {β : Type} (m : List (String × β)) (k : String) : Option β :=
  match m with
  | [] => none
  | (k1, v) :: rest => if k1 == k then some v else mapGet rest k

/-- `Map.set`: overwrite in place when the key exists (insertion order is
kept), append otherwise. -/
def mapSet {β : Type} (m : List (String × β)) (k : String) (v : β) :
    List (String × β) :=
  match m with
  | [] => [(k, v)]
  | (k1, v1) :: rest =>
    if k1 == k then (k1, v) :: rest else (k1, v1) :: mapSet rest k v

/-- The `activeBuilds` map. -/
abbrev Registry := List (String × BuildData)

/-- The retention cleanup of wsl-api-server.js lines 302-309: when the map
holds more than 10 entries, sort a snapshot by `startTime` descending
(the comparator `b.startTime - a.startTime`; JS sort is stable) and delete
every entry beyond the first 10 from the map. -/
def evictOld (reg : Registry) : Registry :=
  if reg.length > 10 then
    let sorted := reg.mergeSort (fun a b => decide (b.2.startTime ≤ a.2.startTime))
    let toDelete := (sorted.drop 10).map Prod.fst
    reg.filter (fun e => !(toDelete.contains e.1))
  else reg

/-- The JSON body the endpoint answers with, restricted to the fields the
claims are about. -/
structure ApiResult where
  httpStatus : Nat
  success : Bool
  message : String
  jarPath : Option String
  buildId : Option String
  deriving DecidableEq

/-- Handling of the subprocess `close` event (wsl-api-server.js lines
259-320).  A non-zero exit code marks the build failed and answers 500
with the captured stderr (or a generic message).  Exit code zero extracts
the JAR path from stdout, marks the build completed with stage `SUCCESS`,
runs the retention cleanup, and answers 200 with `success: true` - whatever
stdout contained. -/
def finalizeClose (reg : Registry) (uniqueId : String) (exitCode : Int)
    (stdoutLines : List String) (stderr : String) : Registry × ApiResult :=
  if exitCode ≠ 0 then
    let reg1 := match mapGet reg uniqueId with
      | some b => mapSet reg uniqueId { b with status := "failed", stage := buildStages.FAILED }
      | none => reg
    (reg1,
     { httpStatus := 500, success := false,
       message := if stderr ≠ "" then stderr else "Script exited with code " ++ toString exitCode,
       jarPath := none, buildId := none })
  else
    let jar := extractJarPath stdoutLines
    let reg1 := match mapGet reg uniqueId with
      | some b =>
        evictOld (mapSet reg uniqueId
          { b with status := "completed", jarPath := jar, stage := buildStages.SUCCESS })
      | none => reg
    (reg1,
     { httpStatus := 200, success := true, message := "Plugin generated successfully!",
       jarPath := jar, buildId := some uniqueId })

/-- How the request handler ends: either the subprocess `close` event
delivered an exit code - `none` models the null code of a signal-killed
child - or an error such as a spawn failure reached the catch blocks,
carrying a `code` and a message. -/
inductive SpawnEnd where
  | closed (exitCode : Option Int)
  | errored (code : Option String) (message : String)
  deriving DecidableEq

/-- How the spawn layer reports the expiry of the bounded timeout
(`spawn(..., { timeout })`, wsl-api-server.js lines 190-193): it kills the
child with SIGTERM and emits no error event, so the handler observes an
ordinary `close` event whose exit code is null - never an ETIMEDOUT-coded
error in the catch blocks.  (bash.sh additionally traps TERM, so the
script may even finish later with an exit code of its own; the killed case
modelled here is the immediate one.) -/
def timeoutCloseEvent : SpawnEnd := SpawnEnd.closed none

/-- End-of-run dispatch (wsl-api-server.js lines 249-364): a `close` event
with an integer exit code is `finalizeClose`; a `close` event with a null
code - a signal-killed child, in particular an expired spawn timeout -
satisfies `exitCode !== 0` and goes through the same failure branch, the
message naming the null code.  An error reaching the catch blocks first
hits the inner catch (lines 322-335: mark failed, record the message) and
is rethrown; the outer catch (lines 337-364) answers 504 with the
timed-out message when `error.code` equals `ETIMEDOUT` or the message
mentions `timeout` - a shape the spawn-layer timeout itself never
produces - and 500 otherwise. -/
def handleRunEnd (timeoutSeconds : Nat) (reg : Registry) (uniqueId : String)
    (ev : SpawnEnd) (stdoutLines : List String) (stderr : String) :
    Registry × ApiResult :=
  match ev with
  | .closed (some ec) => finalizeClose reg uniqueId ec stdoutLines stderr
  | .closed none =>
    let reg1 := match mapGet reg uniqueId with
      | some b =>
        mapSet reg uniqueId { b with status := "failed", stage := buildStages.FAILED }
      | none => reg
    (reg1,
     { httpStatus := 500, success := false,
       message := if stderr ≠ "" then stderr else "Script exited with code null",
       jarPath := none, buildId := none })
  | .errored code msg =>
    let reg1 := match mapGet reg uniqueId with
      | some b =>
        mapSet reg uniqueId
          { b with status := "failed", stage := buildStages.FAILED, error := some msg }
      | none => reg
    if code == some "ETIMEDOUT" || jsIncludes msg "timeout" then
      (reg1,
       { httpStatus := 504, success := false,
         message := "Script execution timed out after " ++ toString timeoutSeconds ++ " seconds",
         jarPath := none, buildId := some uniqueId })
    else
      (reg1,
       { httpStatus := 500, success := false,
         message := if msg ≠ "" then msg else "An unknown error occurred",
         jarPath := none, buildId := some uniqueId })

/-- Answer of `GET /api/build-status/:id` (wsl-api-server.js lines
368-403), restricted to the HTTP status and the reported job fields. -/
structure StatusResp where
  httpStatus : Nat
  status : Option String
  stage : Option String
  fixAttempts : Option Nat
  deriving DecidableEq

/-- `GET /api/build-status/:id`: 200 with the tracked fields when the id is
in the map, 404 otherwise. -/
def getBuildStatus (reg : Registry) (id : String) : StatusResp :=
  match mapGet reg id with
  | some b =>
    { httpStatus := 200, status := some b.status, stage := some b.stage,
      fixAttempts := some b.fixAttempts }
  | none => { httpStatus := 404, status := none, stage := none, fixAttempts := none }

/-- HTTP status of `GET /api/build-logs?id=` (wsl-api-server.js lines
644-716): 200 when the id is in the map; otherwise the endpoint falls back
to the filesystem and answers 200 (`fromFile: true`) whenever the on-disk
plugin directory for the id still exists - with or without a `logs.txt` -
and 404 only when it does not. -/
def getBuildLogs (reg : Registry) (dirExists : Bool) (id : String) : Nat :=
  match mapGet reg id with
  | some _ => 200
  | none => if dirExists then 200 else 404

/-- The value `uniqueId` holds after line 136 of wsl-api-server.js
(`uniqueId = buildId || plugin-Date.now()`; an absent or empty `buildId`
is falsy). -/
def uniqueIdLine136 (reqBuildId : Option String) (t1 : Nat) : String :=
  match reqBuildId with
  | some b => if b == "" then "plugin-" ++ toString t1 else b
  | none => "plugin-" ++ toString t1

/-- The value `uniqueId` holds when the job is registered and for the rest
of the accepted request: line 157 overwrites it unconditionally with
`plugin-` followed by a fresh `Date.now()` timestamp `t2`, so the line-136
value is never used on the accepted path. -/
def uniqueIdAtRegistration (reqBuildId : Option String) (t1 t2 : Nat) : String :=
  let _u := uniqueIdLine136 reqBuildId t1
  let timestamp := t2
  "plugin-" ++ toString timestamp

/-- Per-client record of the rate limiter (wsl-api-server.js lines
62-89). -/
structure ClientRec where
  count : Nat
  resetTime : Nat
  deriving DecidableEq

/-- One pass through the rate-limiting middleware for one request: missing
clients start at count 0 with a fresh window; an expired window resets the
count to 1; otherwise the count increments.  The request is allowed
(`next()` is reached) when the updated count does not exceed `maxReq`,
and rejected with 429 otherwise. -/
def rateLimitStep (windowMs maxReq : Nat) (client : Option ClientRec) (now : Nat) :
    ClientRec × Bool :=
  let c := match client with
    | some c0 => c0
    | none => { count := 0, resetTime := now + windowMs }
  let c1 := if now > c.resetTime then { count := 1, resetTime := now + windowMs }
    else { c with count := c.count + 1 }
  (c1, decide (c1.count ≤ maxReq))

/-- Run the middleware over a sequence of `(ip, time)` requests, returning
the allow/deny decision of each request and the final `clients` map.
`/api/generate-plugin` mounts it as `rateLimit(60000, 5)`. -/
def rateLimitRun (windowMs maxReq : Nat) (clients : List (String × ClientRec)) :
    List (String × Nat) → List Bool × List (String × ClientRec)
  | [] => ([], clients)
  | (ip, now) :: rest =>
    let s := rateLimitStep windowMs maxReq (mapGet clients ip) now
    let r := rateLimitRun windowMs maxReq (mapSet clients ip s.1) rest
    (s.2 :: r.1, r.2)

/-- The allow/deny pattern the rate limiter is expected to produce inside
one window: starting from count `k`, the `n` decisions are
`count ≤ maxReq` for the successive counts `k+1, k+2, ...`. -/
def expectedDecisions (maxReq : Nat) : Nat → Nat → List Bool
  | _, 0 => []
  | k, n + 1 => decide (k + 1 ≤ maxReq) :: expectedDecisions maxReq (k + 1) n

/-! ## Concrete runs used as evidence -/

/-- Job id of the demonstration runs below. -/
def demoId : String := "plugin-1700000000000"

/-- The stdout of a real one-round repair run of bash.sh (part_005), chunked
by lines: the generation succeeds, the initial Maven build fails, fix round
1 returns a valid fix, and the rebuild succeeds.  These are exactly the
banner lines the script echoes on that path (lines 13, 47, 50, 52, 96-97,
100, 146, 164, 167, 210-212, 222-230, 290, 301-303, 308, 319, 334, 343,
346-348, 352-354, 360-363, 6, 424-426 of part_005), interleaved with
representative Maven output. -/
def oneRoundTranscript : List String :=
  [ "Current PATH: /usr/bin:/usr/local/bin:/bin:/sbin:/usr/sbin:/usr/bin"
  , "🔌 Using API endpoint: http://host.docker.internal:5000"
  , "🔍 Testing connection to API endpoint..."
  , "✅ API host is reachable"
  , "🚀 Generating Minecraft plugin with prompt: Create a plugin that adds custom food items"
  , "📁 Files will be saved to: /app/generated-plugins/plugin-1700000000000/CreateaPlugin"
  , "🔄 Sending request to plugin generation API (this may take a few minutes)..."
  , "✅ Plugin generated successfully!"
  , "📄 Created: pom.xml"
  , "📄 Created: src/main/java/com/example/FoodPlugin.java"
  , "🎉 Plugin files have been successfully created in /app/generated-plugins/plugin-1700000000000/CreateaPlugin"
  , "----------------------------------------"
  , "🔨 Building plugin with Maven..."
  , "----------------------------------------"
  , "🧹 Cleaning previous build artifacts..."
  , "🏗️ Running Maven build..."
  , "[INFO] BUILD FAILURE"
  , "----------------------------------------"
  , "❌ Maven build failed. Attempting to fix issues with AI..."
  , "----------------------------------------"
  , "----------------------------------------"
  , "🔄 AI Fix Attempt #1 of 50"
  , "----------------------------------------"
  , "🔍 Analyzing build errors..."
  , "🔄 Sending build errors to API for fixing (this may take a few minutes)..."
  , "✅ Received fixes from API!"
  , "🔧 Updated: src/main/java/com/example/FoodPlugin.java"
  , "----------------------------------------"
  , "🔄 Retrying build with fixed files..."
  , "----------------------------------------"
  , "🧹 Cleaning previous build artifacts..."
  , "🏗️ Running Maven build..."
  , "[INFO] BUILD SUCCESS"
  , "----------------------------------------"
  , "✅ Build successful after 1 AI fix attempts!"
  , "----------------------------------------"
  , "🎮 Plugin JAR file created: target/FoodPlugin-1.0.jar"
  , "To use the plugin, copy this JAR file to your Minecraft server\x27s plugins folder."
  , "PLUGIN_JAR_PATH:target/FoodPlugin-1.0.jar"
  , "🧹 Cleaning up temporary files..."
  , "----------------------------------------"
  , "✨ Process completed"
  , "----------------------------------------" ]

/-- The script run in which the generation succeeds, the initial build
fails, every one of the 50 fix rounds returns a valid fix whose rebuild
fails again, and the degraded `-Dmaven.shade.skip=true` fallback build
fails as well. -/
def allFailScript : ScriptResult :=
  runScript (ApiResp.jsonResp "success" none [("pom.xml", "<project/>")])
    false
    (fun _ => false)
    (fun _ => ApiResp.jsonResp "success" none [("src/main/java/com/example/FoodPlugin.java", "class FoodPlugin")])
    false
    none

/-- The tail of the stdout of that all-fail run (part_005 lines 386-391,
406-413, 425): advice banners only, no `PLUGIN_JAR_PATH:` marker and no
`Plugin JAR file created` line. -/
def allFailTranscriptTail : List String :=
  [ "❌ AI-based fixes unsuccessful after 50 attempts."
  , "🔧 Attempting manual fixes..."
  , "Attempting build with -Dmaven.shade.skip=true..."
  , "❌ Maven build failed with all approaches."
  , "✨ Process completed" ]

/-- Registry and HTTP answer after the server handles the `close` event of
the all-fail run: the script exits 0, so the success finalization runs. -/
def allFailFinal : Registry × ApiResult :=
  finalizeClose [(demoId, initBuild 1700000000000)] demoId
    allFailScript.exitCode allFailTranscriptTail ""

/-- An eleven-entry registry (insertion order = start order, start times
1000 up to 1010, all keys distinct). -/
def demoReg11 : Registry :=
  (List.range 11).map (fun i => ("plugin-" ++ toString (1000 + i), initBuild (1000 + i)))

/-! ## Theorems -/

/-- Helper: when every rebuild fails, the fix loop consumes all its fuel,
incrementing the counter exactly once per iteration. -/
theorem aiFixLoop_allFail (buildOk : Nat → Bool) (fixResp : Nat → ApiResp)
    (h : ∀ n, buildOk n = false) :
    ∀ fuel attempts, aiFixLoop buildOk fixResp fuel attempts = (attempts + fuel, false) := by
  intro fuel
  induction fuel with
  | zero => intro attempts; simp [aiFixLoop]
  | succ f ih =>
    intro attempts
    have hx : attempts + 1 + f = attempts + (f + 1) := by omega
    simp [aiFixLoop, h (attempts + 1), ih (attempts + 1), hx]

/-- C3: given a build that fails on every attempt, the repair loop performs
exactly the 50 budgeted fix attempts - the counter increments once per
iteration - and terminates with `BUILD_SUCCESS=false`, handing over to the
degraded-fallback build. -/
theorem fixLoop_exactly_fifty_attempts (buildOk : Nat → Bool) (fixResp : Nat → ApiResp)
    (h : ∀ n, buildOk n = false) :
    runFixLoop buildOk fixResp = (50, false) := by
  have h50 := aiFixLoop_allFail buildOk fixResp h MAX_AI_FIX_ATTEMPTS 0
  simpa [runFixLoop, MAX_AI_FIX_ATTEMPTS] using h50

/-- Witness for `fixLoop_exactly_fifty_attempts` at a concrete
always-failing build. -/
theorem fixLoop_exactly_fifty_attempts_witness :
    runFixLoop (fun _ => false) (fun _ => ApiResp.empty) = (50, false) :=
  fixLoop_exactly_fifty_attempts (fun _ => false) (fun _ => ApiResp.empty) (fun _ => rfl)

/-- C4: a fix-service response that is empty, not well-formed JSON, or
carries an explicit failure indicator fails `validate_response`, and -
when the 50-attempt budget is not exhausted, i.e. the loop guard still has
fuel - the loop step on such a response is exactly the loop entered at the
next attempt: the round is recoverable and the loop does not abort. -/
theorem invalid_fix_response_recoverable (buildOk : Nat → Bool) (fixResp : Nat → ApiResp)
    (fuel attempts : Nat)
    (h : fixResp (attempts + 1) = ApiResp.empty ∨
         (∃ raw, fixResp (attempts + 1) = ApiResp.invalidJson raw) ∨
         (∃ s m d, s ≠ "success" ∧ fixResp (attempts + 1) = ApiResp.jsonResp s m d)) :
    validate_response (fixResp (attempts + 1)) = false ∧
    aiFixLoop buildOk fixResp (fuel + 1) attempts =
      aiFixLoop buildOk fixResp fuel (attempts + 1) := by
  have hv : validate_response (fixResp (attempts + 1)) = false := by
    rcases h with h | ⟨raw, h⟩ | ⟨s, m, d, hs, h⟩
    · rw [h]; rfl
    · rw [h]; rfl
    · rw [h]; simpa [validate_response] using hs
  exact ⟨hv, by simp [aiFixLoop, hv]⟩

/-- Witness for `invalid_fix_response_recoverable`: an empty response in
round 1 with 49 rounds of budget left. -/
theorem invalid_fix_response_recoverable_witness :
    validate_response ApiResp.empty = false ∧
    aiFixLoop (fun _ => false) (fun _ => ApiResp.empty) 50 0 =
      aiFixLoop (fun _ => false) (fun _ => ApiResp.empty) 49 1 :=
  invalid_fix_response_recoverable (fun _ => false) (fun _ => ApiResp.empty) 49 0 (Or.inl rfl)

/-- C2 (divergence evidence): materializing a FileSet whose single entry
has the parent-escaping relative path `../x` does not fail - the loop
performs the write - and the written path `base/x` lies outside the
destination root `base/MinecraftPluginPlugin`. -/
theorem materialize_parent_escape_writes_outside :
    materializeFiles ["base", "MinecraftPluginPlugin"] [("../x", "c")] =
      [{ dest := ["base", "x"], content := "c" }] ∧
    underRoot ["base", "MinecraftPluginPlugin"] ["base", "x"] = false := by
  decide

/-- C9: the job id used for tracking and returned as `buildId` is the
freshly generated `plugin-<timestamp>`; whatever `buildId` the request body
carried is overwritten before the job is registered, so two requests
differing only in the supplied `buildId` get identical ids. -/
theorem buildId_always_fresh (reqBuildId other : Option String) (t1 t2 : Nat) :
    uniqueIdAtRegistration reqBuildId t1 t2 = "plugin-" ++ toString t2 ∧
    uniqueIdAtRegistration reqBuildId t1 t2 = uniqueIdAtRegistration other t1 t2 :=
  ⟨rfl, rfl⟩

/-- C6: the outcome of a run is decided purely by the subprocess exit code:
exit 0 answers `success: true` with the JAR path extracted from stdout -
absent (`none`) when no artifact can be located - and any non-zero exit
answers 500 with `success: false`. -/
theorem success_decided_by_exit_code (reg : Registry) (uid : String) (ec : Int)
    (lines : List String) (stderrS : String) :
    (ec = 0 →
      (finalizeClose reg uid ec lines stderrS).2.success = true ∧
      (finalizeClose reg uid ec lines stderrS).2.httpStatus = 200 ∧
      (finalizeClose reg uid ec lines stderrS).2.jarPath = extractJarPath lines) ∧
    (ec ≠ 0 →
      (finalizeClose reg uid ec lines stderrS).2.success = false ∧
      (finalizeClose reg uid ec lines stderrS).2.httpStatus = 500) := by
  constructor
  · intro h
    subst h
    simp [finalizeClose]
  · intro h
    simp [finalizeClose, h]

/-- Witness for `success_decided_by_exit_code`: exit 0 on an empty stdout
is success with no JAR path, exit 1 is failure. -/
theorem success_decided_by_exit_code_witness :
    ((finalizeClose [] "plugin-1" 0 [] "").2.success = true ∧
     (finalizeClose [] "plugin-1" 0 [] "").2.httpStatus = 200 ∧
     (finalizeClose [] "plugin-1" 0 [] "").2.jarPath = extractJarPath []) ∧
    (finalizeClose [] "plugin-1" 1 [] "").2.success = false :=
  ⟨(success_decided_by_exit_code [] "plugin-1" 0 [] "").1 rfl,
   ((success_decided_by_exit_code [] "plugin-1" 1 [] "").2 (by decide)).1⟩

/-- C8 (divergence evidence): when the build subprocess exceeds the
bounded timeout, the spawn layer kills it and the handler observes a
`close` event with a null exit code; the run is answered through the
ordinary failure branch - HTTP 500 with the message naming the null exit
code, the very same 500 an ordinary non-zero exit gets - and not through
the distinct 504 timed-out branch, which no subprocess timeout can
reach. -/
theorem timeout_answered_as_ordinary_failure :
    (handleRunEnd 600 [(demoId, initBuild 1700000000000)] demoId timeoutCloseEvent [] "").2.httpStatus = 500 ∧
    (handleRunEnd 600 [(demoId, initBuild 1700000000000)] demoId timeoutCloseEvent [] "").2.success = false ∧
    (handleRunEnd 600 [(demoId, initBuild 1700000000000)] demoId timeoutCloseEvent [] "").2.message =
      "Script exited with code null" ∧
    (handleRunEnd 600 [(demoId, initBuild 1700000000000)] demoId (SpawnEnd.closed (some 1)) [] "").2.httpStatus = 500 := by
  decide

/-- C1 (divergence evidence): on the run where the generation succeeds, the
initial build fails, all 50 fix rounds fail and the degraded fallback build
fails too, the script nevertheless exits 0, so the server finalizes the job
as `completed` with stage `SUCCESS` and an empty `error`, and answers the
caller `success: true` (HTTP 200) with a `null` JAR path. -/
theorem allFail_run_reports_success :
    allFailScript.exitCode = 0 ∧
    allFailScript.buildSuccess = false ∧
    allFailScript.fixAttempts = 50 ∧
    allFailFinal.2.success = true ∧
    allFailFinal.2.httpStatus = 200 ∧
    allFailFinal.2.jarPath = none ∧
    ((mapGet allFailFinal.1 demoId).map (fun b => b.status)) = some "completed" ∧
    ((mapGet allFailFinal.1 demoId).map (fun b => b.stage)) = some buildStages.SUCCESS ∧
    ((mapGet allFailFinal.1 demoId).map (fun b => b.error)) = some none := by
  decide

/-- C5 (divergence evidence): folding the stdout handler over the full
transcript of a real run whose repair loop executed exactly one round (fix
attempt banner `#1`, rebuild success) leaves `fixAttempts` at 0 - no line
the script emits contains the markers `Attempting to fix error` or `Fixing
compilation issues` that the handler counts - even though the job finishes
`completed`. -/
theorem fixAttempts_never_incremented :
    (processStdoutLines oneRoundTranscript (initBuild 1700000000000)).fixAttempts = 0 ∧
    (processStdoutLines oneRoundTranscript (initBuild 1700000000000)).status = "completed" ∧
    (processStdoutLines oneRoundTranscript (initBuild 1700000000000)).stage = buildStages.SUCCESS := by
  decide

/-- C7 counterexample: finalizing a job through the failure branch of the
close handler performs no retention cleanup, so after this finalization an
eleven-entry registry still holds all 11 entries and the oldest job is
still queryable - finalization does not always trim the registry to the 10
most recently started jobs.  Moreover a log query on an id absent from the
registry (unknown or evicted) whose on-disk plugin directory still exists
answers 200 from file, not 404. -/
theorem failed_finalize_skips_eviction :
    ((finalizeClose demoReg11 "plugin-1010" 1 [] "err").1).length = 11 ∧
    (getBuildStatus (finalizeClose demoReg11 "plugin-1010" 1 [] "err").1 "plugin-1000").httpStatus = 200 ∧
    getBuildLogs demoReg11 true "plugin-0999" = 200 := by
  decide

/-- Helper: a pair present in an association list is found by `mapGet`. -/
theorem mapGet_isSome_of_mem {β : Type} :
    ∀ (l : List (String × β)) (e : String × β), e ∈ l → mapGet l e.1 ≠ none := by
  intro l
  induction l with
  | nil => intro e h; cases h
  | cons hd tl ih =>
    intro e h
    obtain ⟨k1, v⟩ := hd
    rw [List.mem_cons] at h
    by_cases hk : k1 == e.1
    · simp [mapGet, hk]
    · rcases h with rfl | h
      · simp at hk
      · simpa [mapGet, hk] using ih e h

/-- Helper: a key no pair of an association list carries is not found by
`mapGet`. -/
theorem mapGet_eq_none {β : Type} :
    ∀ (l : List (String × β)) (k : String), (∀ e ∈ l, e.1 ≠ k) → mapGet l k = none := by
  intro l
  induction l with
  | nil => intro k _; rfl
  | cons hd tl ih =>
    intro k h
    obtain ⟨k1, v⟩ := hd
    have h1 : k1 ≠ k := h (k1, v) (List.mem_cons_self _ _)
    have hk : (k1 == k) = false := beq_eq_false_iff_ne.mpr h1
    simpa [mapGet, hk] using ih k (fun e he => h e (List.mem_cons_of_mem _ he))

/-- Helper: a member of the registry is queryable with HTTP 200. -/
theorem status200_of_mem (l : Registry) (e : String × BuildData) (h : e ∈ l) :
    (getBuildStatus l e.1).httpStatus = 200 := by
  have hs := mapGet_isSome_of_mem l e h
  cases hm : mapGet l e.1 with
  | none => exact absurd hm hs
  | some b => simp [getBuildStatus, hm]

/-- Helper: with distinct keys, the keys of the first `n` entries and the
keys of the remaining entries are disjoint. -/
theorem keys_take_drop_disjoint {β : Type} (sorted : List (String × β)) (n : Nat)
    (h : (sorted.map Prod.fst).Nodup) :
    List.Disjoint ((sorted.take n).map Prod.fst) ((sorted.drop n).map Prod.fst) := by
  have hsplit : sorted.take n ++ sorted.drop n = sorted := List.take_append_drop n sorted
  have hx : (((sorted.take n) ++ (sorted.drop n)).map Prod.fst).Nodup := by
    rw [hsplit]; exact h
  rw [List.map_append] at hx
  exact (List.nodup_append.mp hx).2.2

/-- Helper: filtering a key-distinct list down to the complement of the
keys of the entries beyond position `n` of a permutation of it keeps
exactly the first `n` entries of that permutation (up to permutation). -/
theorem filter_keep_take {β : Type} (l sorted : List (String × β)) (n : Nat)
    (hperm : List.Perm sorted l) (hkeys : (l.map Prod.fst).Nodup) :
    List.Perm
      (l.filter (fun e => !(((sorted.drop n).map Prod.fst).contains e.1)))
      (sorted.take n) := by
  have hkeysS : (sorted.map Prod.fst).Nodup := ((hperm.map Prod.fst).nodup_iff).mpr hkeys
  have hdisj := keys_take_drop_disjoint sorted n hkeysS
  have hsplit : sorted.take n ++ sorted.drop n = sorted := List.take_append_drop n sorted
  set p : (String × β) → Bool := fun e => !(((sorted.drop n).map Prod.fst).contains e.1) with hp
  have h1 : List.Perm (l.filter p) (sorted.filter p) := (hperm.filter p).symm
  have h2 : sorted.filter p = sorted.take n := by
    conv => lhs; rw [← hsplit]
    rw [List.filter_append]
    have ht : (sorted.take n).filter p = sorted.take n := by
      rw [List.filter_eq_self]
      intro a ha
      have ha1 : a.1 ∈ (sorted.take n).map Prod.fst := List.mem_map_of_mem Prod.fst ha
      have ha2 : a.1 ∉ (sorted.drop n).map Prod.fst := hdisj ha1
      simpa [hp, List.contains, List.elem_iff] using ha2
    have hd : (sorted.drop n).filter p = [] := by
      rw [List.filter_eq_nil_iff]
      intro a ha
      have ha1 : a.1 ∈ (sorted.drop n).map Prod.fst := List.mem_map_of_mem Prod.fst ha
      simpa [hp, List.contains, List.elem_iff] using ha1
    rw [ht, hd, List.append_nil]
  rw [h2] at h1
  exact h1

/-- C7 (amended): on the success finalization path, the retention cleanup
trims a key-distinct registry holding more than 10 entries to exactly 10
surviving entries; every survivor stays queryable (HTTP 200), every evicted
entry started no later than every survivor (the oldest by start time are
the ones deleted), a status query for an evicted id - and any id missing
from the registry - answers 404, and a log query on an id missing from the
registry answers 404 when its on-disk plugin directory no longer exists. -/
theorem evict_keeps_ten_newest (reg : Registry)
    (hkeys : (reg.map Prod.fst).Nodup) (hlen : 10 < reg.length) :
    (evictOld reg).length = 10 ∧
    (∀ e ∈ evictOld reg, (getBuildStatus (evictOld reg) e.1).httpStatus = 200) ∧
    (∀ d ∈ reg, d ∉ evictOld reg → ∀ e ∈ evictOld reg, d.2.startTime ≤ e.2.startTime) ∧
    (∀ d ∈ reg, d ∉ evictOld reg → (getBuildStatus (evictOld reg) d.1).httpStatus = 404) ∧
    (∀ id, mapGet reg id = none → (getBuildStatus reg id).httpStatus = 404) ∧
    (∀ id, mapGet reg id = none → getBuildLogs reg false id = 404) := by
  have hev : evictOld reg =
      reg.filter (fun e =>
        !((((reg.mergeSort (fun a b => decide (b.2.startTime ≤ a.2.startTime))).drop 10).map Prod.fst).contains e.1)) := by
    unfold evictOld
    rw [if_pos hlen]
  have hperm : List.Perm (reg.mergeSort (fun a b => decide (b.2.startTime ≤ a.2.startTime))) reg :=
    List.mergeSort_perm reg _
  have hkeep := filter_keep_take reg
    (reg.mergeSort (fun a b => decide (b.2.startTime ≤ a.2.startTime))) 10 hperm hkeys
  rw [← hev] at hkeep
  have htrans : ∀ (a b c : String × BuildData),
      (fun a b => decide (b.2.startTime ≤ a.2.startTime)) a b →
      (fun a b => decide (b.2.startTime ≤ a.2.startTime)) b c →
      (fun a b => decide (b.2.startTime ≤ a.2.startTime)) a c = true := by
    intro a b c hab hbc
    simp only [decide_eq_true_eq] at hab hbc ⊢
    omega
  have htotal : ∀ (a b : String × BuildData),
      ((fun a b => decide (b.2.startTime ≤ a.2.startTime)) a b ||
       (fun a b => decide (b.2.startTime ≤ a.2.startTime)) b a) = true := by
    intro a b
    simp only [Bool.or_eq_true, decide_eq_true_eq]
    omega
  have hpair := List.sorted_mergeSort htrans htotal reg
  have hkeysS : ((reg.mergeSort (fun a b => decide (b.2.startTime ≤ a.2.startTime))).map Prod.fst).Nodup :=
    ((hperm.map Prod.fst).nodup_iff).mpr hkeys
  have hsplit :
      (reg.mergeSort (fun a b => decide (b.2.startTime ≤ a.2.startTime))).take 10 ++
        (reg.mergeSort (fun a b => decide (b.2.startTime ≤ a.2.startTime))).drop 10 =
        reg.mergeSort (fun a b => decide (b.2.startTime ≤ a.2.startTime)) :=
    List.take_append_drop 10 _
  have hdropOf : ∀ d, d ∈ reg → d ∉ evictOld reg →
      d ∈ (reg.mergeSort (fun a b => decide (b.2.startTime ≤ a.2.startTime))).drop 10 := by
    intro d hd hdnot
    have hdS : d ∈ reg.mergeSort (fun a b => decide (b.2.startTime ≤ a.2.startTime)) :=
      hperm.mem_iff.mpr hd
    rw [← hsplit] at hdS
    rcases List.mem_append.mp hdS with hdT | hdD
    · exfalso
      apply hdnot
      rw [hev, List.mem_filter]
      refine ⟨hd, ?_⟩
      have ha1 : d.1 ∈ ((reg.mergeSort (fun a b => decide (b.2.startTime ≤ a.2.startTime))).take 10).map Prod.fst :=
        List.mem_map_of_mem Prod.fst hdT
      have ha2 := keys_take_drop_disjoint _ 10 hkeysS ha1
      simpa [List.contains, List.elem_iff] using ha2
    · exact hdD
  refine ⟨?_, ?_, ?_, ?_, ?_, ?_⟩
  · rw [hkeep.length_eq, List.length_take]
    have hl := hperm.length_eq
    omega
  · intro e he
    exact status200_of_mem _ e he
  · intro d hd hdnot e he
    have heT := hkeep.mem_iff.mp he
    have hdD := hdropOf d hd hdnot
    have hcross := (List.pairwise_append.mp (by rw [hsplit]; exact hpair)).2.2
    have hle := hcross e heT d hdD
    simpa using hle
  · intro d hd hdnot
    have hdD := hdropOf d hd hdnot
    have hnone : mapGet (evictOld reg) d.1 = none := by
      apply mapGet_eq_none
      intro e he heq
      have heT := hkeep.mem_iff.mp he
      have h1 : e.1 ∈ ((reg.mergeSort (fun a b => decide (b.2.startTime ≤ a.2.startTime))).take 10).map Prod.fst :=
        List.mem_map_of_mem Prod.fst heT
      have h2 : d.1 ∈ ((reg.mergeSort (fun a b => decide (b.2.startTime ≤ a.2.startTime))).drop 10).map Prod.fst :=
        List.mem_map_of_mem Prod.fst hdD
      rw [heq] at h1
      exact keys_take_drop_disjoint _ 10 hkeysS h1 h2
    simp [getBuildStatus, hnone]
  · intro id h
    simp [getBuildStatus, h]
  · intro id h
    simp [getBuildLogs, h]

/-- Witness for `evict_keeps_ten_newest` at the concrete eleven-entry
registry. -/
theorem evict_keeps_ten_newest_witness :
    (evictOld demoReg11).length = 10 :=
  (evict_keeps_ten_newest demoReg11 (by decide) (by decide)).1

/-- Helper: `expectedDecisions` produces one decision per request. -/
theorem expectedDecisions_length (maxReq : Nat) :
    ∀ (n k : Nat), (expectedDecisions maxReq k n).length = n := by
  intro n
  induction n with
  | zero => intro k; rfl
  | succ m ih => intro k; simp [expectedDecisions, ih (k + 1)]

/-- Helper: the `i`-th decision of `expectedDecisions` compares the count
`k + i + 1` against the limit. -/
theorem expectedDecisions_getElem (maxReq : Nat) :
    ∀ (n k i : Nat), i < n →
      (expectedDecisions maxReq k n)[i]? = some (decide (k + i + 1 ≤ maxReq)) := by
  intro n
  induction n with
  | zero => intro k i h; omega
  | succ m ih =>
    intro k i h
    match i with
    | 0 => simp [expectedDecisions]
    | j + 1 =>
      have hj : j < m := by omega
      have hx : k + 1 + j + 1 = k + (j + 1) + 1 := by omega
      simp only [expectedDecisions, List.getElem?_cons_succ]
      rw [ih (k + 1) j hj, hx]

/-- Helper: running the middleware over a concatenation splits into the two
runs, the second starting from the state the first one left. -/
theorem rateLimitRun_append (w m : Nat) :
    ∀ (xs ys : List (String × Nat)) (cl : List (String × ClientRec)),
      rateLimitRun w m cl (xs ++ ys) =
        ((rateLimitRun w m cl xs).1 ++ (rateLimitRun w m (rateLimitRun w m cl xs).2 ys).1,
         (rateLimitRun w m (rateLimitRun w m cl xs).2 ys).2) := by
  intro xs
  induction xs with
  | nil => intro ys cl; simp [rateLimitRun]
  | cons x xs ih =>
    intro ys cl
    obtain ⟨xi, xn⟩ := x
    simp only [List.cons_append, rateLimitRun, List.append_eq, ih]

/-- Helper: a sequence of requests from `ip` that all fall inside the
current window of the client increments the count once per request and allows
exactly the requests whose updated count stays within the limit. -/
theorem rateLimitRun_inWindow (ip : String) (R : Nat) :
    ∀ (ts : List Nat) (k : Nat), (∀ t ∈ ts, t ≤ R) →
      rateLimitRun 60000 5 [(ip, ⟨k, R⟩)] (ts.map (fun t => (ip, t))) =
        (expectedDecisions 5 k ts.length, [(ip, ⟨k + ts.length, R⟩)]) := by
  intro ts
  induction ts with
  | nil => intro k h; simp [rateLimitRun, expectedDecisions]
  | cons t ts ih =>
    intro k h
    have ht : t ≤ R := h t (List.mem_cons_self t ts)
    have hnot : ¬ t > R := by omega
    have hrest : ∀ u ∈ ts, u ≤ R := fun u hu => h u (List.mem_cons_of_mem t hu)
    have hx : k + 1 + ts.length = k + (ts.length + 1) := by omega
    simp only [List.map_cons, rateLimitRun, mapGet, mapSet, rateLimitStep,
      beq_self_eq_true, if_pos, if_neg hnot, List.length_cons, expectedDecisions]
    rw [ih (k + 1) hrest, hx]

/-- C10: starting from a fresh client, a first request at `t0`, further
requests at times `ts` inside the 60-second window, and one request at
`t2` after the window expired: the `i`-th request of the window (0-based)
is allowed exactly when it is among the first 5 (`i + 1 ≤ 5`), every later
in-window request is rejected, and the first request after expiry is
allowed again (the counter resets). -/
theorem rate_limit_window_five (ip : String) (t0 : Nat) (ts : List Nat)
    (h : ∀ t ∈ ts, t ≤ t0 + 60000) (t2 : Nat) (h2 : t0 + 60000 < t2) :
    (∀ i, i < ts.length + 1 →
      ((rateLimitRun 60000 5 [] (((t0 :: ts) ++ [t2]).map (fun t => (ip, t)))).1)[i]? =
        some (decide (i + 1 ≤ 5))) ∧
    ((rateLimitRun 60000 5 [] (((t0 :: ts) ++ [t2]).map (fun t => (ip, t)))).1)[ts.length + 1]? =
      some true := by
  have hnot0 : ¬ t0 > t0 + 60000 := by omega
  have h2g : t2 > t0 + 60000 := h2
  have hdec : (rateLimitRun 60000 5 [] (((t0 :: ts) ++ [t2]).map (fun t => (ip, t)))).1 =
      expectedDecisions 5 0 (ts.length + 1) ++ [true] := by
    rw [List.map_append, List.map_cons]
    simp only [rateLimitRun, mapGet, mapSet, rateLimitStep, List.append_eq, if_neg hnot0]
    rw [rateLimitRun_append]
    rw [rateLimitRun_inWindow ip (t0 + 60000) ts 1 h]
    simp only [List.map_cons, List.map_nil, rateLimitRun, mapGet, mapSet, rateLimitStep,
      beq_self_eq_true, if_pos, if_pos h2g, expectedDecisions]
    rfl
  refine ⟨?_, ?_⟩
  · intro i hi
    rw [hdec, List.getElem?_append_left, expectedDecisions_getElem 5 (ts.length + 1) 0 i hi]
    · simp
    · rw [expectedDecisions_length]; omega
  · rw [hdec]
    have hL : (expectedDecisions 5 0 (ts.length + 1)).length = ts.length + 1 :=
      expectedDecisions_length 5 (ts.length + 1) 0
    rw [List.getElem?_append_right (by omega)]
    simp [hL]

/-- Witness for `rate_limit_window_five`: requests at times 0 through 6
from one ip inside one window (the fifth passes, the sixth is rejected)
followed by a request at 70000, after the window, which passes again. -/
theorem rate_limit_window_five_witness :
    (((rateLimitRun 60000 5 []
        ((((0 : Nat) :: [1, 2, 3, 4, 5, 6]) ++ [70000]).map (fun t => ("1.2.3.4", t)))).1)[4]? =
      some (decide (4 + 1 ≤ 5)) ∧
     ((rateLimitRun 60000 5 []
        ((((0 : Nat) :: [1, 2, 3, 4, 5, 6]) ++ [70000]).map (fun t => ("1.2.3.4", t)))).1)[5]? =
      some (decide (5 + 1 ≤ 5))) ∧
    ((rateLimitRun 60000 5 []
        ((((0 : Nat) :: [1, 2, 3, 4, 5, 6]) ++ [70000]).map (fun t => ("1.2.3.4", t)))).1)[7]? =
      some true :=
  ⟨⟨(rate_limit_window_five "1.2.3.4" 0 [1, 2, 3, 4, 5, 6] (by decide) 70000 (by decide)).1
      4 (by decide),
    (rate_limit_window_five "1.2.3.4" 0 [1, 2, 3, 4, 5, 6] (by decide) 70000 (by decide)).1
      5 (by decide)⟩,
   (rate_limit_window_five "1.2.3.4" 0 [1, 2, 3, 4, 5, 6] (by decide) 70000 (by decide)).2⟩

end WslServer
